import Mathlib

/-!
Shallow embedding of `csv_to_kml.py` (bensons/csv-to-kml), covering the
geocoding resolution pipeline, the coordinate-bypass path, the placemark
builder and the KML serialization of a placemark.

Modelling conventions:
* Python floats are modelled as exact rationals; every property settled here
  concerns control flow, caching, filtering or string assembly, not float
  arithmetic.
* A CSV row from `csv.DictReader` is an ordered association list from column
  name to `Option String`; the value `none` models the Python `None` that
  `DictReader` stores for the cells of a short row, `some s` a string cell.
* The geocoding collaborator is a parameter `g : String → LookupOutcome`
  giving, per address, the outcome of `geocoder.geocode(address, timeout=10)`:
  a hit, an empty result, or one of the exception kinds the source catches.
* Side effects are made explicit: `geocode_address` and `batch_geocode`
  return, besides their value, the ordered list of `Event`s they perform
  (a rate-limit `sleep`, an outbound `lookup`, a printed `log` diagnostic,
  a `progress` report).
-/

namespace CsvToKml

/-- A coordinate pair `(longitude, latitude)` as built at line 63 of the
source (`coordinates = (location.longitude, location.latitude)`). -/
abbrev Coord := ℚ × ℚ

/-- A parsed CSV row: ordered mapping from column name to cell value. -/
abbrev Row := List (String × Option String)

/-- First-match association-list lookup; models Python dict access (keys of a
`DictReader` row are the unique header names). -/
def alookup {β : Type} : List (String × β) → String → Option β
  | [], _ => none
  | (k, v) :: rest, a => if a = k then some v else alookup rest a

/-- Python `row.get(k, dflt)`: the stored value when the key is present (even
when that stored value is `None`), otherwise the default. -/
def fetch (row : Row) (k : String) (dflt : Option String) : Option String :=
  match alookup row k with
  | some v => v
  | none => dflt

/-- Outcome of one call of the geocoding collaborator
(`geocoder.geocode(address, timeout=10)`, line 60): a location, a falsy
result, or one of the exception kinds caught at lines 70 and 74. -/
inductive LookupOutcome where
  | found (lon lat : ℚ)
  | empty
  | timedOut (msg : String)
  | serviceError (msg : String)
  | otherError (msg : String)
deriving DecidableEq

/-- The geocoding collaborator of one run, as a deterministic oracle. -/
abbrev Geocoder := String → LookupOutcome

/-- Observable steps of the resolver, in program order: `time.sleep(delay)`
(line 59), the outbound `geocoder.geocode` call (line 60), a printed
diagnostic (lines 71 and 75), and the per-address progress print of
`batch_geocode` (line 92). -/
inductive Event where
  | sleep (d : ℚ)
  | lookup (addr : String)
  | log (msg : String)
  | progress (idx total : Nat) (preview : String)
deriving DecidableEq

/-- The per-run geocode cache (line 86: `cache = {}`), newest entry first;
`alookup` returns the newest binding, matching dict overwrite. -/
abbrev Cache := List (String × Option Coord)

/-- Value, updated cache and performed events of one `geocode_address` call. -/
structure GeoResult where
  result : Option Coord
  cache : Cache
  events : List Event
deriving DecidableEq

/-- The diagnostic printed at line 71 for a timed-out or service-error
lookup: `Geocoding error for {address}: {e}` with the address quoted. -/
def geocodeErrMsg (a e : String) : String :=
  "Geocoding error for \x27" ++ a ++ "\x27: " ++ e

/-- The diagnostic printed at line 75 for any other collaborator failure. -/
def unexpectedErrMsg (a e : String) : String :=
  "Unexpected error geocoding \x27" ++ a ++ "\x27: " ++ e

/-- Python `address.strip()`: drop whitespace from both ends. Python strips
a few more Unicode space classes than `Char.isWhitespace`; the difference
matters for no claim settled here. -/
def pyStrip (s : String) : String :=
  String.mk
    (((s.toList.dropWhile Char.isWhitespace).reverse.dropWhile
      Char.isWhitespace).reverse)

/-- `geocode_address` (lines 49-77): early return for empty or
whitespace-only addresses, cache consultation, then a sleep of `delay`
followed by the outbound call; every completed miss is recorded in the
cache, a failed or empty one as `none`. -/
def geocode_address (g : Geocoder) (delay : ℚ) (address : String)
    (cache : Cache) : GeoResult :=
  if address = "" ∨ pyStrip address = "" then
    { result := none, cache := cache, events := [] }
  else
    match alookup cache address with
    | some v => { result := v, cache := cache, events := [] }
    | none =>
      match g address with
      | LookupOutcome.found lon lat =>
          { result := some (lon, lat)
            cache := (address, some (lon, lat)) :: cache
            events := [Event.sleep delay, Event.lookup address] }
      | LookupOutcome.empty =>
          { result := none
            cache := (address, none) :: cache
            events := [Event.sleep delay, Event.lookup address] }
      | LookupOutcome.timedOut e =>
          { result := none
            cache := (address, none) :: cache
            events := [Event.sleep delay, Event.lookup address,
                       Event.log (geocodeErrMsg address e)] }
      | LookupOutcome.serviceError e =>
          { result := none
            cache := (address, none) :: cache
            events := [Event.sleep delay, Event.lookup address,
                       Event.log (geocodeErrMsg address e)] }
      | LookupOutcome.otherError e =>
          { result := none
            cache := (address, none) :: cache
            events := [Event.sleep delay, Event.lookup address,
                       Event.log (unexpectedErrMsg address e)] }

/-- Accumulated state of the `batch_geocode` loop (lines 90-95). -/
structure BatchState where
  cache : Cache
  results : List (String × Option Coord)
  events : List Event
deriving DecidableEq

/-- Python `address[:50]` (line 92), on the character level. -/
def pyTake (n : Nat) (s : String) : String :=
  String.mk (s.toList.take n)

/-- One iteration of the `batch_geocode` loop: progress print, then
`geocode_address` with the shared cache; the result dict gains a binding for
the address. -/
def batchStep (g : Geocoder) (total : Nat) (st : BatchState)
    (ia : Nat × String) : BatchState :=
  let r := geocode_address g 1 ia.2 st.cache
  { cache := r.cache
    results := (ia.2, r.result) :: st.results
    events := st.events ++ Event.progress ia.1 total (pyTake 50 ia.2) :: r.events }

/-- `batch_geocode` (lines 80-97): a fresh cache and result dict, then the
enumerated loop over the addresses; `geocode_address` is called with its
default `delay = 1.0`. -/
def batch_geocode (g : Geocoder) (addresses : List String) : BatchState :=
  (addresses.enumFrom 1).foldl (batchStep g addresses.length)
    { cache := [], results := [], events := [] }

/-- Number of outbound collaborator calls for a given address in a trace. -/
def lookCount (a : String) (es : List Event) : Nat :=
  (es.filter (fun e => e = Event.lookup a)).length

/-- The printed diagnostics of a trace, in order. -/
def logMsgs (es : List Event) : List String :=
  es.filterMap (fun e => match e with | Event.log m => some m | _ => none)

/-- Whether every outbound `lookup` in the trace is immediately preceded by a
`sleep` of the full delay `d`; scanned pairwise with the previous event. -/
def sleepGuardedFrom (d : ℚ) : Event → List Event → Bool
  | _, [] => true
  | prev, e :: rest =>
    (match e with
     | Event.lookup _ => decide (prev = Event.sleep d)
     | _ => true) && sleepGuardedFrom d e rest

/-- `sleepGuarded d es` holds when no `lookup` opens the trace and every
`lookup` is immediately preceded by `sleep d`. -/
def sleepGuarded (d : ℚ) : List Event → Bool
  | [] => true
  | e :: rest =>
    (match e with
     | Event.lookup _ => false
     | _ => true) && sleepGuardedFrom d e rest

/-- Whether the trace does not open with an outbound call (such a trace can
be appended to any sleep-guarded trace without breaking the guard). -/
def headNotLookup : List Event → Bool
  | Event.lookup _ :: _ => false
  | _ => true

/-- Python truthiness of an address cell (`filter(None, addresses)` keeps
exactly the non-`None`, non-empty strings). -/
def truthyStr : Option String → Bool
  | some s => s ≠ ""
  | none => false

/-- Lines 243-244: `addresses = [row.get(address_col, '') for row in data]`
then `unique_addresses = list(set(filter(None, addresses)))`. Deduplication
is by exact string equality; the element order of a Python set is arbitrary,
so only membership and duplicate-freeness are meaningful. -/
def uniqueAddresses (rows : List Row) (addrCol : String) : List String :=
  (((rows.map (fun r => fetch r addrCol (some ""))).filterMap id).filter
    (fun s => s ≠ "")).dedup

/-- Whether the first character list opens the second one. -/
def startsWithL : List Char → List Char → Bool
  | [], _ => true
  | _ :: _, [] => false
  | a :: as, b :: bs => a = b && startsWithL as bs

/-- Whether the first character list occurs contiguously in the second. -/
def subListAt : List Char → List Char → Bool
  | needle, [] => needle.isEmpty
  | needle, c :: rest => startsWithL needle (c :: rest) || subListAt needle rest

/-- Python substring containment `needle in hay`. -/
def substrB (needle hay : String) : Bool :=
  subListAt needle.toList hay.toList

/-- Python `col.lower()`, modelled on the character level (the headers of
interest are ASCII, where the two agree). -/
def pyLower (s : String) : String :=
  String.mk (s.toList.map Char.toLower)

/-- Line 42: `'address' in col.lower()`. -/
def hasAddressSub (col : String) : Bool :=
  substrB "address" (pyLower col)

/-- The `ValueError` message of line 46. -/
def columnNotFoundMsg (columnName : String) (headers : List String) : String :=
  "Column \x27" ++ columnName ++ "\x27 not found in CSV. Available columns: "
    ++ String.intercalate ", " headers

/-- `find_address_column` (lines 36-46): verbatim header match, else the
first header containing the substring "address" case-insensitively, else a
`ValueError` listing the available columns. -/
def find_address_column (headers : List String) (columnName : String) :
    Except String String :=
  if headers.contains columnName then Except.ok columnName
  else
    match headers.filter hasAddressSub with
    | c :: _ => Except.ok c
    | [] => Except.error (columnNotFoundMsg columnName headers)

/-- A marker record as assembled at lines 228-233 and 274-279: the dict with
name, coordinates, description and extended data. Name and description keep
the optionality of the Python values they are read from. -/
structure Placemark where
  name : Option String
  coordinates : Coord
  description : Option String
  extended_data : List (String × String)
deriving DecidableEq

/-- Python `str(x)` applied to an optional string value (line 126). -/
def pyStr : Option String → String
  | some s => s
  | none => "None"

/-- Python truthiness of the configured name column (`if name_column:`). -/
def nameColTruthy : Option String → Bool
  | some nc => nc ≠ ""
  | none => false

/-- The dict comprehension of lines 226 and 272: keep every row pair whose
key is not excluded and whose value is truthy. -/
def extendedData (row : Row) (excluded : List String) : List (String × String) :=
  row.filterMap (fun kv =>
    if excluded.contains kv.1 then none
    else
      match kv.2 with
      | some v => if v = "" then none else some (kv.1, v)
      | none => none)

/-- Lines 268-270: `excluded_cols = {address_col}` plus the name column when
it is truthy. -/
def geocodeExcluded (addrColFound : String) (nameCol : Option String) :
    List String :=
  match nameCol with
  | some nc => if nc ≠ "" then [addrColFound, nc] else [addrColFound]
  | none => [addrColFound]

/-- Line 253: `geocoded_addresses.get(address)`; a Python `None` address is
never a key of the result dict, and an absent key yields `None`. -/
def resultsGet (results : List (String × Option Coord)) :
    Option String → Option Coord
  | none => none
  | some a =>
    match alookup results a with
    | some v => v
    | none => none

/-- Lines 262-265: the placemark name of the geocoding path, falling back to
the address value. -/
def geocodeName (headers : List String) (nameCol : Option String) (row : Row)
    (address : Option String) : Option String :=
  match nameCol with
  | some nc =>
    if nc ≠ "" && headers.contains nc then fetch row nc address else address
  | none => address

/-- One iteration of the geocoding-path loop (lines 251-279): `none` when the
address did not resolve and line 257 skips the row, otherwise the placemark. -/
def geocodeRowStep (headers : List String) (addrColFound : String)
    (nameCol : Option String) (results : List (String × Option Coord))
    (row : Row) : Option Placemark :=
  let address := fetch row addrColFound (some "")
  match resultsGet results address with
  | none => none
  | some coords =>
    some { name := geocodeName headers nameCol row address
           coordinates := coords
           description := address
           extended_data :=
             extendedData row (geocodeExcluded addrColFound nameCol) }

/-- The geocoding-path loop over all rows: surviving placemarks in row
order, plus the warnings printed at line 256 for the skipped rows. -/
def geocodePath (headers : List String) (addrColFound : String)
    (nameCol : Option String) (results : List (String × Option Coord)) :
    List Row → List Placemark × List String
  | [] => ([], [])
  | row :: rest =>
    let tail := geocodePath headers addrColFound nameCol results rest
    match geocodeRowStep headers addrColFound nameCol results row with
    | some p => (p :: tail.1, tail.2)
    | none =>
      (tail.1,
        ("Warning: Could not geocode address: "
          ++ pyStr (fetch row addrColFound (some ""))) :: tail.2)

/-- Python `float(row.get(col, 0))` of lines 206-207, with a caller-supplied
model of `float` parsing on strings: an absent key yields the integer
default `0` (which floats to `0.0`), a `None` cell raises `TypeError`, and a
string cell either parses or raises `ValueError`; both exceptions are the
`none` outcome caught at line 209. -/
def pyFloatCell (parse : String → Option ℚ) (row : Row) (col : String) :
    Option ℚ :=
  match alookup row col with
  | none => some 0
  | some none => none
  | some (some s) => parse s

/-- Lines 220-224: the excluded columns of the coordinate path. -/
def bypassExcluded (headers : List String) (addrCol : String)
    (nameCol : Option String) (latCol lonCol : String) : List String :=
  [latCol, lonCol]
    ++ (match nameCol with
        | some nc => if nc ≠ "" then [nc] else []
        | none => [])
    ++ (if headers.contains addrCol then [addrCol] else [])

/-- Lines 213-217: the placemark name of the coordinate path. -/
def bypassName (headers : List String) (addrCol : String)
    (nameCol : Option String) (idx : Nat) (row : Row) : Option String :=
  match nameCol with
  | some nc =>
    if nc ≠ "" && headers.contains nc then
      fetch row nc (some ("Point " ++ toString idx))
    else fetch row addrCol (some ("Point " ++ toString idx))
  | none => fetch row addrCol (some ("Point " ++ toString idx))

/-- One iteration of the coordinate-path loop (lines 204-233): `none` when
either coordinate cell fails to parse (the row is skipped at line 210),
otherwise the placemark with the parsed values passed through verbatim as
`(longitude, latitude)`, with no range check of any kind. -/
def bypassRowStep (parse : String → Option ℚ) (headers : List String)
    (addrCol : String) (nameCol : Option String) (latCol lonCol : String)
    (idx : Nat) (row : Row) : Option Placemark :=
  match pyFloatCell parse row latCol, pyFloatCell parse row lonCol with
  | some lat, some lon =>
    some { name := bypassName headers addrCol nameCol idx row
           coordinates := (lon, lat)
           description := fetch row addrCol (some "")
           extended_data :=
             extendedData row
               (bypassExcluded headers addrCol nameCol latCol lonCol) }
  | _, _ => none

/-- Line 210: the per-row skip diagnostic of the coordinate path. -/
def skipRowMsg (idx : Nat) : String :=
  "Skipping row " ++ toString idx ++ ": Invalid coordinates"

/-- The coordinate-path loop over the rows enumerated from a start index,
returning the placemarks of the rows whose coordinates parse, plus the skip
diagnostics of the others. -/
def bypassLoop (parse : String → Option ℚ) (headers : List String)
    (addrCol : String) (nameCol : Option String) (latCol lonCol : String) :
    Nat → List Row → List Placemark × List String
  | _, [] => ([], [])
  | idx, row :: rest =>
    let tail := bypassLoop parse headers addrCol nameCol latCol lonCol
      (idx + 1) rest
    match bypassRowStep parse headers addrCol nameCol latCol lonCol idx row with
    | some p => (p :: tail.1, tail.2)
    | none => (tail.1, skipRowMsg idx :: tail.2)

/-- Python truthiness of the description value at line 129. -/
def descTruthy : Option String → Bool
  | some s => s ≠ ""
  | none => false

/-- One `<tr>` line of the embedded HTML table (line 137). -/
def tableRow (kv : String × String) : String :=
  "<tr><td><b>" ++ kv.1 ++ "</b></td><td>" ++ kv.2 ++ "</td></tr>"

/-- Lines 131-139: the text assigned to the description element; when the
placemark has extended data the raw description is joined with a manually
written CDATA opener, the table rows and the closer. -/
def descText (p : Placemark) : String :=
  if p.extended_data.isEmpty then pyStr p.description
  else
    String.intercalate "\n"
      ([pyStr p.description, "<![CDATA[<table border=\x271\x27>"]
        ++ p.extended_data.map tableRow ++ ["</table>]]>"])

/-- A child element of a `<Placemark>`. -/
inductive KElem where
  | nameEl (s : String)
  | descriptionEl (s : String)
  | styleUrlEl (s : String)
  | extendedDataEl (pairs : List (String × String))
  | pointEl (c : Coord)
deriving DecidableEq

/-- The child elements of one `<Placemark>` (lines 121-159), in document
order: the name always; a description element only when the description
value is truthy; the style reference; the structured ExtendedData block only
when the placemark has extended data; the Point coordinates. -/
def placemarkElems (p : Placemark) : List KElem :=
  [KElem.nameEl (pyStr p.name)]
    ++ (if descTruthy p.description then [KElem.descriptionEl (descText p)]
        else [])
    ++ [KElem.styleUrlEl "#defaultStyle"]
    ++ (if p.extended_data.isEmpty then []
        else [KElem.extendedDataEl p.extended_data])
    ++ [KElem.pointEl p.coordinates]

/-- One step of the escaping `xml.dom.minidom` applies to every text node it
writes (`_write_data`: replace `&`, then `<`, then the double quote, then
`>`); no replacement inserts a character that a later stage replaces, so the
sequential chain acts independently on each character of the original text
and is modelled as a character map. -/
def escapeChar (c : Char) : List Char :=
  if c = '&' then "&amp;".toList
  else if c = '<' then "&lt;".toList
  else if c = '"' then "&quot;".toList
  else if c = '>' then "&gt;".toList
  else [c]

/-- The escaping applied to the description text on its way into the output
document: `ET.tostring` at line 162 escapes the text, `minidom.parseString`
at line 163 undoes that escaping while building its text nodes, and
`toprettyxml` at line 164 applies `_write_data` when writing them out; the
net transformation of the text of line 141 is exactly one `_write_data`
pass. -/
def writeData (s : String) : String :=
  String.mk (s.toList.map escapeChar).flatten

/-- The description element of one placemark as it appears in the output
document (surrounding whitespace aside): the tag pair around the escaped
text. -/
def serializedDescription (p : Placemark) : String :=
  "<description>" ++ writeData (descText p) ++ "</description>"

/-! ### Helper lemmas -/

theorem foldl_inv {α β : Type} (P : β → Prop) (f : β → α → β)
    (hstep : ∀ st x, P st → P (f st x)) :
    ∀ (l : List α) (st : β), P st → P (l.foldl f st) := by
  intro l
  induction l with
  | nil => intro st h; exact h
  | cons x xs ih => intro st h; exact ih _ (hstep st x h)

theorem lookCount_append (a : String) (xs ys : List Event) :
    lookCount a (xs ++ ys) = lookCount a xs + lookCount a ys := by
  simp [lookCount, List.filter_append]

theorem geocode_address_cached (g : Geocoder) (d : ℚ) (addr : String)
    (c : Cache) (hc : alookup c addr ≠ none) :
    (geocode_address g d addr c).events = [] := by
  unfold geocode_address
  split
  · rfl
  · cases h : alookup c addr with
    | none => exact absurd h hc
    | some v => simp [h]

theorem geocode_address_lookups (g : Geocoder) (d : ℚ) (addr : String)
    (c : Cache) (a : String) :
    (alookup c a ≠ none →
        lookCount a (geocode_address g d addr c).events = 0 ∧
        alookup (geocode_address g d addr c).cache a ≠ none) ∧
    lookCount a (geocode_address g d addr c).events ≤ 1 ∧
    (1 ≤ lookCount a (geocode_address g d addr c).events →
        alookup (geocode_address g d addr c).cache a ≠ none) := by
  unfold geocode_address
  split
  · simp [lookCount]
  · cases hc : alookup c addr with
    | some v => simp [hc, lookCount]
    | none =>
      by_cases haa : addr = a
      · subst haa
        cases hg : g addr <;> simp [hc, hg, lookCount, alookup]
      · have haa' : ¬ a = addr := fun hh => haa hh.symm
        cases hg : g addr <;> simp [hc, hg, lookCount, alookup, haa', haa]

theorem batchStep_lookCount (g : Geocoder) (total : Nat) (st : BatchState)
    (x : Nat × String) (b : String) :
    lookCount b (batchStep g total st x).events =
      lookCount b st.events +
        lookCount b (geocode_address g 1 x.2 st.cache).events := by
  simp only [batchStep]
  rw [show Event.progress x.1 total (pyTake 50 x.2) ::
        (geocode_address g 1 x.2 st.cache).events =
      [Event.progress x.1 total (pyTake 50 x.2)] ++
        (geocode_address g 1 x.2 st.cache).events from rfl,
    lookCount_append, lookCount_append]
  simp [lookCount]

theorem batch_lookups_once (g : Geocoder) (addresses : List String)
    (a : String) :
    lookCount a (batch_geocode g addresses).events ≤ 1 := by
  have h := foldl_inv
    (fun st : BatchState => ∀ b, lookCount b st.events ≤ 1 ∧
      (1 ≤ lookCount b st.events → alookup st.cache b ≠ none))
    (batchStep g addresses.length)
    (by
      intro st x hst b
      have hgeo := geocode_address_lookups g 1 x.2 st.cache b
      have heq := batchStep_lookCount g addresses.length st x b
      have hcache : (batchStep g addresses.length st x).cache =
          (geocode_address g 1 x.2 st.cache).cache := rfl
      rcases hst b with ⟨h1, h2⟩
      by_cases h0 : 1 ≤ lookCount b st.events
      · obtain ⟨hz, hkeep⟩ := hgeo.1 (h2 h0)
        refine ⟨?_, fun _ => ?_⟩
        · rw [heq, hz]; omega
        · rw [hcache]; exact hkeep
      · have h0' : lookCount b st.events = 0 := by omega
        refine ⟨?_, fun hge => ?_⟩
        · rw [heq, h0']; simpa using hgeo.2.1
        · rw [hcache]
          apply hgeo.2.2
          rw [heq, h0'] at hge
          simpa using hge)
    (addresses.enumFrom 1) { cache := [], results := [], events := [] }
    (by intro b; simp [lookCount])
  exact (h a).1

/-! ### C8: address-column resolution -/

/-- C8: for every header list and configured column name, a verbatim match
is used as is; otherwise the first header containing the substring "address"
case-insensitively is used; otherwise the run fails with the ValueError
whose message names the configured column and lists all available columns. -/
theorem find_address_column_resolution (headers : List String)
    (columnName : String) :
    (columnName ∈ headers →
        find_address_column headers columnName = Except.ok columnName) ∧
    (columnName ∉ headers → ∀ c cs, headers.filter hasAddressSub = c :: cs →
        find_address_column headers columnName = Except.ok c) ∧
    (columnName ∉ headers → headers.filter hasAddressSub = [] →
        find_address_column headers columnName =
          Except.error (columnNotFoundMsg columnName headers)) := by
  refine ⟨fun h => ?_, fun h c cs hf => ?_, fun h hf => ?_⟩
  · unfold find_address_column
    rw [if_pos (List.elem_iff.mpr h)]
  · have hc : ¬ headers.contains columnName = true := by
      intro hh; exact h (List.elem_iff.mp hh)
    unfold find_address_column
    rw [if_neg hc, hf]
  · have hc : ¬ headers.contains columnName = true := by
      intro hh; exact h (List.elem_iff.mp hh)
    unfold find_address_column
    rw [if_neg hc, hf]

/-- Witness for `find_address_column_resolution`: the configured name
"Address" is absent from both header lists; the first resolves through the
case-insensitive fallback header, the second fails with the message listing
the columns. -/
theorem find_address_column_resolution_witness :
    find_address_column ["Home Address", "X"] "Address" =
        Except.ok "Home Address" ∧
    find_address_column ["A", "B"] "Address" =
        Except.error (columnNotFoundMsg "Address" ["A", "B"]) := by
  constructor
  · exact (find_address_column_resolution ["Home Address", "X"] "Address").2.1
      (by decide) "Home Address" [] (by decide)
  · exact (find_address_column_resolution ["A", "B"] "Address").2.2
      (by decide) (by decide)

/-! ### C1: at most one outbound lookup per distinct address -/

/-- C1: the address list handed to `batch_geocode` is duplicate-free, the
whole batch performs at most one outbound lookup per address string, and a
cached address produces no event at all (the cache is consulted before any
sleep or network call). -/
theorem geocode_at_most_once_per_address (rows : List Row) (addrCol : String)
    (g : Geocoder) (a : String) :
    (uniqueAddresses rows addrCol).Nodup ∧
    lookCount a (batch_geocode g (uniqueAddresses rows addrCol)).events ≤ 1 ∧
    (∀ (d : ℚ) (addr : String) (c : Cache),
        alookup c addr ≠ none → (geocode_address g d addr c).events = []) :=
  ⟨List.nodup_dedup _, batch_lookups_once g _ a,
    fun d addr c hc => geocode_address_cached g d addr c hc⟩

/-- Witness for `geocode_at_most_once_per_address`: an address already in
the cache triggers neither a sleep nor an outbound call. -/
theorem geocode_at_most_once_per_address_witness :
    (geocode_address (fun _ => LookupOutcome.empty) 1 "a"
        [("a", some (1, 2))]).events = [] :=
  (geocode_at_most_once_per_address [] "A" (fun _ => LookupOutcome.empty)
      "a").2.2 1 "a" [("a", some (1, 2))] (by decide)

/-! ### C3: rate-limiting sleep before every outbound call -/

theorem sleepGuardedFrom_of_guarded (d : ℚ) (ys : List Event)
    (hy : sleepGuarded d ys = true) (hh : headNotLookup ys = true)
    (prev : Event) : sleepGuardedFrom d prev ys = true := by
  cases ys with
  | nil => rfl
  | cons e rest =>
    cases e <;> simp_all [sleepGuarded, sleepGuardedFrom, headNotLookup]

theorem sleepGuardedFrom_append (d : ℚ) (ys : List Event)
    (hy : sleepGuarded d ys = true) (hh : headNotLookup ys = true) :
    ∀ (xs : List Event) (prev : Event), sleepGuardedFrom d prev xs = true →
      sleepGuardedFrom d prev (xs ++ ys) = true := by
  intro xs
  induction xs with
  | nil => intro prev _; exact sleepGuardedFrom_of_guarded d ys hy hh prev
  | cons x rest ih =>
    intro prev hx
    simp only [List.cons_append, sleepGuardedFrom] at hx ⊢
    rw [Bool.and_eq_true] at hx ⊢
    exact ⟨hx.1, ih x hx.2⟩

theorem sleepGuarded_append (d : ℚ) (xs ys : List Event)
    (hx : sleepGuarded d xs = true) (hy : sleepGuarded d ys = true)
    (hh : headNotLookup ys = true) : sleepGuarded d (xs ++ ys) = true := by
  cases xs with
  | nil => simpa using hy
  | cons x rest =>
    simp only [List.cons_append, sleepGuarded] at hx ⊢
    rw [Bool.and_eq_true] at hx ⊢
    exact ⟨hx.1, sleepGuardedFrom_append d ys hy hh rest x hx.2⟩

theorem geocode_address_sleepGuarded (g : Geocoder) (d : ℚ) (addr : String)
    (c : Cache) :
    sleepGuarded d (geocode_address g d addr c).events = true ∧
    headNotLookup (geocode_address g d addr c).events = true := by
  unfold geocode_address
  split
  · exact ⟨rfl, rfl⟩
  · cases hc : alookup c addr with
    | some v => exact ⟨rfl, rfl⟩
    | none =>
      cases hg : g addr <;>
        simp [sleepGuarded, sleepGuardedFrom, headNotLookup]

theorem batch_geocode_sleepGuarded (g : Geocoder) (addresses : List String) :
    sleepGuarded 1 (batch_geocode g addresses).events = true := by
  exact foldl_inv
    (fun st : BatchState => sleepGuarded 1 st.events = true)
    (batchStep g addresses.length)
    (by
      intro st x hst
      have hgeo := geocode_address_sleepGuarded g 1 x.2 st.cache
      have hblock : sleepGuarded 1
          (Event.progress x.1 addresses.length (pyTake 50 x.2) ::
            (geocode_address g 1 x.2 st.cache).events) = true := by
        simp only [sleepGuarded]
        rw [Bool.and_eq_true]
        exact ⟨rfl, sleepGuardedFrom_of_guarded 1 _ hgeo.1 hgeo.2 _⟩
      exact sleepGuarded_append 1 st.events _ hst hblock rfl)
    (addresses.enumFrom 1) { cache := [], results := [], events := [] } rfl

/-- C3: every outbound lookup in the event trace is immediately preceded by
a sleep of the full delay, both in a single `geocode_address` call with an
arbitrary delay and in a whole `batch_geocode` run with the default delay
1.0; the guard covers the calls whose outcome is a failure, and on a cache
miss for a submittable address the trace opens with the sleep followed by
the outbound call, so the delay is never skipped. -/
theorem sleep_precedes_every_lookup (g : Geocoder) :
    (∀ (d : ℚ) (addr : String) (c : Cache),
        sleepGuarded d (geocode_address g d addr c).events = true) ∧
    (∀ addresses : List String,
        sleepGuarded 1 (batch_geocode g addresses).events = true) ∧
    (∀ (d : ℚ) (addr : String) (c : Cache), addr ≠ "" → pyStrip addr ≠ "" →
        alookup c addr = none →
        (geocode_address g d addr c).events.take 2 =
          [Event.sleep d, Event.lookup addr]) := by
  refine ⟨fun d addr c => (geocode_address_sleepGuarded g d addr c).1,
    fun addresses => batch_geocode_sleepGuarded g addresses,
    fun d addr c ha hw hc => ?_⟩
  unfold geocode_address
  rw [if_neg (by simp [ha, hw]), hc]
  cases hg : g addr <;> rfl

/-- Witness for `sleep_precedes_every_lookup`: a fresh cache miss sleeps the
full delay and then calls out. -/
theorem sleep_precedes_every_lookup_witness :
    (geocode_address (fun _ => LookupOutcome.empty) 1 "X" []).events.take 2 =
      [Event.sleep 1, Event.lookup "X"] :=
  (sleep_precedes_every_lookup (fun _ => LookupOutcome.empty)).2.2 1 "X" []
    (by decide) (by decide) rfl

/-! ### C4: up-front reduction of the address list -/

theorem geocode_address_lookup_mem (g : Geocoder) (d : ℚ) (addr : String)
    (c : Cache) (a : String)
    (h : Event.lookup a ∈ (geocode_address g d addr c).events) :
    a = addr ∧ addr ≠ "" ∧ pyStrip addr ≠ "" := by
  unfold geocode_address at h
  split at h
  next hws => simp at h
  next hws =>
    push_neg at hws
    cases hc : alookup c addr with
    | some v => rw [hc] at h; simp at h
    | none =>
      rw [hc] at h
      cases hg : g addr <;> rw [hg] at h <;> simp at h <;>
        exact ⟨h, hws.1, hws.2⟩

theorem batch_lookup_mem (g : Geocoder) (addresses : List String) (a : String)
    (h : Event.lookup a ∈ (batch_geocode g addresses).events) :
    a ≠ "" ∧ pyStrip a ≠ "" := by
  have hinv := foldl_inv
    (fun st : BatchState =>
      ∀ b, Event.lookup b ∈ st.events → b ≠ "" ∧ pyStrip b ≠ "")
    (batchStep g addresses.length)
    (by
      intro st x hst b hb
      simp only [batchStep, List.mem_append, List.mem_cons] at hb
      rcases hb with hb | hb | hb
      · exact hst b hb
      · simp at hb
      · obtain ⟨hba, h1, h2⟩ := geocode_address_lookup_mem g 1 x.2 st.cache b hb
        subst hba; exact ⟨h1, h2⟩)
    (addresses.enumFrom 1) { cache := [], results := [], events := [] }
    (by intro b hb; simp at hb)
  exact hinv a h

/-- C4 counterexample: a whitespace-only (nonempty) address survives the
up-front reduction of line 244. `filter(None, ...)` drops only falsy values,
so the single-space address is still in the unique list handed to
`batch_geocode`; the claim that whitespace-only strings are excluded before
resolution begins is false. -/
theorem whitespace_only_survives_upfront_reduction :
    uniqueAddresses [[("Address", some " ")]] "Address" = [" "] := by decide

/-- C4 (amended): the up-front reduction excludes empty strings (and Python
None cells) and deduplicates, but whitespace-only nonempty strings survive
it and enter the resolution loop; the resolver returns for them before any
network call, so no empty or whitespace-only address is ever submitted to
the geocoding collaborator. -/
theorem upfront_reduction_and_no_blank_submission (rows : List Row)
    (addrCol : String) (g : Geocoder) (a : String) :
    "" ∉ uniqueAddresses rows addrCol ∧
    (Event.lookup a ∈ (batch_geocode g (uniqueAddresses rows addrCol)).events →
        a ≠ "" ∧ pyStrip a ≠ "") := by
  constructor
  · intro hmem
    rw [uniqueAddresses, List.mem_dedup, List.mem_filter] at hmem
    simp at hmem
  · exact fun h => batch_lookup_mem g _ a h

/-- Witness for `upfront_reduction_and_no_blank_submission`: the one address
actually submitted in a concrete run is neither empty nor whitespace-only. -/
theorem upfront_reduction_and_no_blank_submission_witness :
    "X" ≠ "" ∧ pyStrip "X" ≠ "" :=
  (upfront_reduction_and_no_blank_submission [[("Address", some "X")]]
      "Address" (fun _ => LookupOutcome.empty) "X").2 (by decide)

/-! ### C2: non-fatal failure handling in the resolver -/

theorem batch_failed_address (g : Geocoder) (a : String)
    (hfail : ∀ lon lat, g a ≠ LookupOutcome.found lon lat)
    (addresses : List String) :
    resultsGet (batch_geocode g addresses).results (some a) = none := by
  have hinv := foldl_inv
    (fun st : BatchState =>
      (∀ v, alookup st.cache a = some v → v = none) ∧
      resultsGet st.results (some a) = none)
    (batchStep g addresses.length)
    (by
      intro st x hst
      obtain ⟨hca, hra⟩ := hst
      have hr : (x.2 = a → (geocode_address g 1 x.2 st.cache).result = none) ∧
          (∀ v, alookup (geocode_address g 1 x.2 st.cache).cache a = some v →
            v = none) := by
        unfold geocode_address
        split
        · exact ⟨fun _ => rfl, hca⟩
        · cases hc : alookup st.cache x.2 with
          | some v =>
            exact ⟨fun hxa => hca v (by rw [← hxa]; exact hc), hca⟩
          | none =>
            cases hg : g x.2 with
            | found lon lat =>
              by_cases hxa : x.2 = a
              · rw [hxa] at hg; exact absurd hg (hfail lon lat)
              · refine ⟨fun h => absurd h hxa, fun v hv => ?_⟩
                simp only [alookup] at hv
                rw [if_neg (fun hh => hxa hh.symm)] at hv
                exact hca v hv
            | empty =>
              refine ⟨fun _ => rfl, fun v hv => ?_⟩
              simp only [alookup] at hv
              by_cases hax : a = x.2
              · rw [if_pos hax] at hv; injection hv with hv'; exact hv'.symm
              · rw [if_neg hax] at hv; exact hca v hv
            | timedOut e =>
              refine ⟨fun _ => rfl, fun v hv => ?_⟩
              simp only [alookup] at hv
              by_cases hax : a = x.2
              · rw [if_pos hax] at hv; injection hv with hv'; exact hv'.symm
              · rw [if_neg hax] at hv; exact hca v hv
            | serviceError e =>
              refine ⟨fun _ => rfl, fun v hv => ?_⟩
              simp only [alookup] at hv
              by_cases hax : a = x.2
              · rw [if_pos hax] at hv; injection hv with hv'; exact hv'.symm
              · rw [if_neg hax] at hv; exact hca v hv
            | otherError e =>
              refine ⟨fun _ => rfl, fun v hv => ?_⟩
              simp only [alookup] at hv
              by_cases hax : a = x.2
              · rw [if_pos hax] at hv; injection hv with hv'; exact hv'.symm
              · rw [if_neg hax] at hv; exact hca v hv
      refine ⟨hr.2, ?_⟩
      show resultsGet ((x.2, (geocode_address g 1 x.2 st.cache).result) ::
        st.results) (some a) = none
      simp only [resultsGet, alookup]
      by_cases hax : a = x.2
      · rw [if_pos hax]
        rw [hr.1 hax.symm]
      · rw [if_neg hax]
        simpa [resultsGet] using hra)
    (addresses.enumFrom 1) { cache := [], results := [], events := [] }
    (by exact ⟨fun v hv => by simp [alookup] at hv, rfl⟩)
  exact hinv.2

theorem geocodePath_eq_filterMap (headers : List String)
    (addrColFound : String) (nameCol : Option String)
    (results : List (String × Option Coord)) (rows : List Row) :
    (geocodePath headers addrColFound nameCol results rows).1 =
      rows.filterMap (geocodeRowStep headers addrColFound nameCol results) := by
  induction rows with
  | nil => rfl
  | cons row rest ih =>
    simp only [geocodePath, List.filterMap_cons]
    cases h : geocodeRowStep headers addrColFound nameCol results row <;>
      simp [h, ih]

/-- C2 counterexample: for an empty (falsy) lookup result the claim says
`geocode_address` logs a diagnostic identifying the address; evaluating the
resolver on such an outcome shows it prints nothing (the only diagnostic
for an unresolved address is printed later, by the conversion loop at
line 256). -/
theorem empty_result_not_logged_by_resolver :
    logMsgs (geocode_address (fun _ => LookupOutcome.empty) 1
      "221B Baker St" []).events = [] := by decide

/-- C2 (amended): a provider time-out, provider service error or unexpected
collaborator failure is caught inside `geocode_address`, which prints one
diagnostic naming the address, records `None` in the cache and returns
`None`; an empty lookup result is likewise recorded and returned as `None`,
but its diagnostic is printed by the conversion loop, not by
`geocode_address`, which stays silent in that case.  For an address whose
lookup never succeeds, every row referencing it is dropped by the placemark
loop, which processes the remaining rows row by row. -/
theorem geocode_failures_nonfatal (g : Geocoder) (d : ℚ) (a : String)
    (c : Cache) (ha : a ≠ "") (hw : pyStrip a ≠ "")
    (hc : alookup c a = none) :
    (∀ e, g a = LookupOutcome.timedOut e ∨ g a = LookupOutcome.serviceError e →
        (geocode_address g d a c).result = none ∧
        alookup (geocode_address g d a c).cache a = some none ∧
        logMsgs (geocode_address g d a c).events = [geocodeErrMsg a e]) ∧
    (∀ e, g a = LookupOutcome.otherError e →
        (geocode_address g d a c).result = none ∧
        alookup (geocode_address g d a c).cache a = some none ∧
        logMsgs (geocode_address g d a c).events = [unexpectedErrMsg a e]) ∧
    (g a = LookupOutcome.empty →
        (geocode_address g d a c).result = none ∧
        alookup (geocode_address g d a c).cache a = some none ∧
        logMsgs (geocode_address g d a c).events = []) ∧
    ((∀ lon lat, g a ≠ LookupOutcome.found lon lat) →
      ∀ (addresses : List String) (headers : List String)
        (addrColFound : String) (nameCol : Option String) (row : Row),
        fetch row addrColFound (some "") = some a →
        geocodeRowStep headers addrColFound nameCol
          (batch_geocode g addresses).results row = none) ∧
    (∀ (headers : List String) (addrColFound : String)
        (nameCol : Option String) (results : List (String × Option Coord))
        (rows : List Row),
        (geocodePath headers addrColFound nameCol results rows).1 =
          rows.filterMap
            (geocodeRowStep headers addrColFound nameCol results)) := by
  have hguard : ¬ (a = "" ∨ pyStrip a = "") := by simp [ha, hw]
  refine ⟨?_, ?_, ?_, ?_, ?_⟩
  · rintro e (hg | hg) <;>
      (unfold geocode_address
       rw [if_neg hguard, hc, hg]
       exact ⟨rfl, by simp [alookup], by simp [logMsgs]⟩)
  · intro e hg
    unfold geocode_address
    rw [if_neg hguard, hc, hg]
    exact ⟨rfl, by simp [alookup], by simp [logMsgs]⟩
  · intro hg
    unfold geocode_address
    rw [if_neg hguard, hc, hg]
    exact ⟨rfl, by simp [alookup], by simp [logMsgs]⟩
  · intro hfail addresses headers addrColFound nameCol row hfetch
    have hres := batch_failed_address g a hfail addresses
    simp only [geocodeRowStep, hfetch, hres]
  · intro headers addrColFound nameCol results rows
    exact geocodePath_eq_filterMap headers addrColFound nameCol results rows

/-- Witness for `geocode_failures_nonfatal`: a timed-out lookup is logged
with the address named, and a concrete row referencing the failed address
yields no placemark. -/
theorem geocode_failures_nonfatal_witness :
    logMsgs (geocode_address (fun _ => LookupOutcome.timedOut "boom") 1 "X"
        []).events = [geocodeErrMsg "X" "boom"] ∧
    geocodeRowStep ["Address"] "Address" none
      (batch_geocode (fun _ => LookupOutcome.timedOut "boom") ["X"]).results
      [("Address", some "X")] = none := by
  constructor
  · exact ((geocode_failures_nonfatal (fun _ => LookupOutcome.timedOut "boom")
      1 "X" [] (by decide) (by decide) rfl).1 "boom" (Or.inl rfl)).2.2
  · exact (geocode_failures_nonfatal (fun _ => LookupOutcome.timedOut "boom")
      1 "X" [] (by decide) (by decide) rfl).2.2.2.1
      (by intro lon lat h; simp at h) ["X"] ["Address"] "Address" none
      [("Address", some "X")] (by decide)

/-! ### C5: coordinate-path per-row skip and verbatim pass-through -/

theorem bypassLoop_spec (parse : String → Option ℚ) (headers : List String)
    (addrCol : String) (nameCol : Option String) (latCol lonCol : String) :
    ∀ (rows : List Row) (start : Nat),
      (bypassLoop parse headers addrCol nameCol latCol lonCol start rows).1 =
        (List.enumFrom start rows).filterMap
          (fun ir => bypassRowStep parse headers addrCol nameCol latCol lonCol
            ir.1 ir.2) ∧
      (bypassLoop parse headers addrCol nameCol latCol lonCol start rows).2 =
        (List.enumFrom start rows).filterMap
          (fun ir =>
            match bypassRowStep parse headers addrCol nameCol latCol lonCol
              ir.1 ir.2 with
            | some _ => none
            | none => some (skipRowMsg ir.1)) := by
  intro rows
  induction rows with
  | nil => intro start; exact ⟨rfl, rfl⟩
  | cons row rest ih =>
    intro start
    obtain ⟨ih1, ih2⟩ := ih (start + 1)
    simp only [bypassLoop, List.enumFrom, List.filterMap_cons]
    cases h : bypassRowStep parse headers addrCol nameCol latCol lonCol
        start row <;>
      simp [h, ih1, ih2]

/-- C5: in the coordinate-column path a row is skipped exactly when its
latitude or longitude cell is missing (Python None) or fails to parse as a
number; in particular a None cell forces the skip; a row whose two cells
parse is included with the parsed values passed through verbatim as
`(longitude, latitude)` whatever their sign or magnitude, with no clamping;
and the loop equals the enumerated row-wise map of this step, every skipped
row contributing exactly the line-210 diagnostic carrying its index, so a
bad row never aborts the run. -/
theorem bypass_row_skip_and_verbatim (parse : String → Option ℚ)
    (headers : List String) (addrCol : String) (nameCol : Option String)
    (latCol lonCol : String) (idx : Nat) (row : Row) :
    (bypassRowStep parse headers addrCol nameCol latCol lonCol idx row = none ↔
      pyFloatCell parse row latCol = none ∨
      pyFloatCell parse row lonCol = none) ∧
    ((alookup row latCol = some none ∨ alookup row lonCol = some none) →
      bypassRowStep parse headers addrCol nameCol latCol lonCol idx row =
        none) ∧
    (∀ la lo, pyFloatCell parse row latCol = some la →
      pyFloatCell parse row lonCol = some lo →
      ∃ p, bypassRowStep parse headers addrCol nameCol latCol lonCol idx row =
          some p ∧ p.coordinates = (lo, la)) ∧
    (∀ (rows : List Row) (start : Nat),
      (bypassLoop parse headers addrCol nameCol latCol lonCol start rows).1 =
        (List.enumFrom start rows).filterMap
          (fun ir => bypassRowStep parse headers addrCol nameCol latCol lonCol
            ir.1 ir.2) ∧
      (bypassLoop parse headers addrCol nameCol latCol lonCol start rows).2 =
        (List.enumFrom start rows).filterMap
          (fun ir =>
            match bypassRowStep parse headers addrCol nameCol latCol lonCol
              ir.1 ir.2 with
            | some _ => none
            | none => some (skipRowMsg ir.1))) := by
  refine ⟨?_, ?_, ?_, bypassLoop_spec parse headers addrCol nameCol latCol
    lonCol⟩
  · unfold bypassRowStep
    cases hla : pyFloatCell parse row latCol <;>
      cases hlo : pyFloatCell parse row lonCol <;> simp
  · intro h
    unfold bypassRowStep
    rcases h with h | h
    · have : pyFloatCell parse row latCol = none := by
        unfold pyFloatCell; rw [h]
      rw [this]
    · have : pyFloatCell parse row lonCol = none := by
        unfold pyFloatCell; rw [h]
      rw [this]
      cases pyFloatCell parse row latCol <;> rfl
  · intro la lo hla hlo
    unfold bypassRowStep
    rw [hla, hlo]
    exact ⟨_, rfl, rfl⟩

/-- Witness for `bypass_row_skip_and_verbatim`: a row whose latitude cell
does not parse is skipped. -/
theorem bypass_row_skip_and_verbatim_witness :
    bypassRowStep (fun s => if s = "10.0" then some 10 else none)
      ["Lat", "Lon"] "Address" none "Lat" "Lon" 2
      [("Lat", some "bad"), ("Lon", some "10.0")] = none :=
  (bypass_row_skip_and_verbatim (fun s => if s = "10.0" then some 10 else none)
    ["Lat", "Lon"] "Address" none "Lat" "Lon" 2
    [("Lat", some "bad"), ("Lon", some "10.0")]).1.mpr (Or.inl (by decide))

/-! ### C7: extended-attributes exclusion invariant -/

theorem extendedData_mem (row : Row) (excluded : List String) (k v : String) :
    (k, v) ∈ extendedData row excluded ↔
      ((k, some v) ∈ row ∧ v ≠ "" ∧ k ∉ excluded) := by
  unfold extendedData
  rw [List.mem_filterMap]
  constructor
  · rintro ⟨⟨k', ov⟩, hmem, hf⟩
    dsimp only at hf
    split at hf
    next hex => cases hf
    next hex =>
      cases ov with
      | none => cases hf
      | some v' =>
        dsimp only at hf
        by_cases hv : v' = ""
        · rw [if_pos hv] at hf; cases hf
        · rw [if_neg hv] at hf
          injection hf with hf'
          have hk : k' = k := congrArg Prod.fst hf'
          have hvv : v' = v := congrArg Prod.snd hf'
          subst hk; subst hvv
          exact ⟨hmem, hv, fun hkmem => hex (List.elem_iff.mpr hkmem)⟩
  · rintro ⟨hmem, hv, hex⟩
    refine ⟨(k, some v), hmem, ?_⟩
    have hnc : ¬ excluded.contains k = true :=
      fun hh => hex (List.elem_iff.mp hh)
    simp [hnc, hv]
    exact hex

theorem geocodeRowStep_extended (headers : List String)
    (addrColFound : String) (nameCol : Option String)
    (results : List (String × Option Coord)) (row : Row) (p : Placemark)
    (h : geocodeRowStep headers addrColFound nameCol results row = some p) :
    p.extended_data =
      extendedData row (geocodeExcluded addrColFound nameCol) := by
  simp only [geocodeRowStep] at h
  cases hres : resultsGet results (fetch row addrColFound (some "")) with
  | none => rw [hres] at h; cases h
  | some coords =>
    rw [hres] at h
    injection h with h'
    rw [← h']

theorem bypassRowStep_extended (parse : String → Option ℚ)
    (headers : List String) (addrCol : String) (nameCol : Option String)
    (latCol lonCol : String) (idx : Nat) (row : Row) (p : Placemark)
    (h : bypassRowStep parse headers addrCol nameCol latCol lonCol idx row =
      some p) :
    p.extended_data =
      extendedData row (bypassExcluded headers addrCol nameCol latCol lonCol) := by
  unfold bypassRowStep at h
  cases hla : pyFloatCell parse row latCol with
  | none => rw [hla] at h; cases h
  | some la =>
    cases hlo : pyFloatCell parse row lonCol with
    | none => rw [hla, hlo] at h; cases h
    | some lo =>
      rw [hla, hlo] at h
      injection h with h'
      rw [← h']

/-- C7: for every marker produced by either path, the extended-attributes
mapping contains no pair for a column consumed as name, address, latitude
or longitude, no pair whose row value is empty or missing, and every other
column/value pair of the row with a truthy value is present.  The
well-formedness hypothesis says the row keys come from the header, which is
what `csv.DictReader` guarantees. -/
theorem extended_attributes_exclusion (headers : List String) (row : Row)
    (hwf : ∀ kv ∈ row, kv.1 ∈ headers) :
    (∀ (addrColFound : String) (nameCol : Option String)
        (results : List (String × Option Coord)) (p : Placemark),
      geocodeRowStep headers addrColFound nameCol results row = some p →
      (∀ k v, (k, v) ∈ p.extended_data →
        (k, some v) ∈ row ∧ v ≠ "" ∧ k ≠ addrColFound ∧
        (∀ nc, nameCol = some nc → nc ≠ "" → k ≠ nc)) ∧
      (∀ k v, (k, some v) ∈ row → v ≠ "" →
        k ∉ geocodeExcluded addrColFound nameCol → (k, v) ∈ p.extended_data)) ∧
    (∀ (parse : String → Option ℚ) (addrCol : String)
        (nameCol : Option String) (latCol lonCol : String) (idx : Nat)
        (p : Placemark),
      bypassRowStep parse headers addrCol nameCol latCol lonCol idx row =
        some p →
      (∀ k v, (k, v) ∈ p.extended_data →
        (k, some v) ∈ row ∧ v ≠ "" ∧ k ≠ latCol ∧ k ≠ lonCol ∧ k ≠ addrCol ∧
        (∀ nc, nameCol = some nc → nc ≠ "" → k ≠ nc)) ∧
      (∀ k v, (k, some v) ∈ row → v ≠ "" →
        k ∉ bypassExcluded headers addrCol nameCol latCol lonCol →
        (k, v) ∈ p.extended_data)) := by
  constructor
  · intro addrColFound nameCol results p hstep
    have hext := geocodeRowStep_extended headers addrColFound nameCol results
      row p hstep
    constructor
    · intro k v hkv
      rw [hext, extendedData_mem] at hkv
      obtain ⟨hmem, hv, hexcl⟩ := hkv
      refine ⟨hmem, hv, ?_, ?_⟩
      · intro hk
        apply hexcl
        rw [hk]
        cases nameCol with
        | none => simp [geocodeExcluded]
        | some nc => by_cases h : nc = "" <;> simp [geocodeExcluded, h]
      · intro nc hnc hncne hknc
        apply hexcl
        rw [hknc, hnc]
        simp [geocodeExcluded, hncne]
    · intro k v hmem hv hexcl
      rw [hext, extendedData_mem]
      exact ⟨hmem, hv, hexcl⟩
  · intro parse addrCol nameCol latCol lonCol idx p hstep
    have hext := bypassRowStep_extended parse headers addrCol nameCol latCol
      lonCol idx row p hstep
    constructor
    · intro k v hkv
      rw [hext, extendedData_mem] at hkv
      obtain ⟨hmem, hv, hexcl⟩ := hkv
      refine ⟨hmem, hv, ?_, ?_, ?_, ?_⟩
      · intro hk
        apply hexcl
        rw [hk]
        simp [bypassExcluded]
      · intro hk
        apply hexcl
        rw [hk]
        simp [bypassExcluded]
      · intro hk
        by_cases haddr : addrCol ∈ headers
        · apply hexcl
          rw [hk]
          simp [bypassExcluded, haddr]
        · exact haddr (by rw [← hk]; exact hwf (k, some v) hmem)
      · intro nc hnc hncne hknc
        apply hexcl
        rw [hknc, hnc]
        simp [bypassExcluded, hncne]
    · intro k v hmem hv hexcl
      rw [hext, extendedData_mem]
      exact ⟨hmem, hv, hexcl⟩

/-- Witness for `extended_attributes_exclusion`: on a concrete row with
columns Address, Name, City, the marker built by the geocoding path keeps
the City pair, whose value is truthy and whose key is not the consumed
address column. -/
theorem extended_attributes_exclusion_witness :
    ("City", some "Boston") ∈
        ([("Address", some "X"), ("Name", some "Bob"),
          ("City", some "Boston")] : Row) ∧
    "Boston" ≠ "" ∧ "City" ≠ "Address" := by
  have h := (extended_attributes_exclusion ["Address", "Name", "City"]
    [("Address", some "X"), ("Name", some "Bob"), ("City", some "Boston")]
    (by decide)).1 "Address" (some "Name") [("X", some (1, 2))]
    { name := some "Bob", coordinates := (1, 2), description := some "X",
      extended_data := [("City", "Boston")] } (by decide)
  have h2 := h.1 "City" "Boston" (by decide)
  exact ⟨h2.1, h2.2.1, h2.2.2.1⟩

/-! ### C10: empty description omits the element and the embedded table -/

/-- C10: for a marker whose description value is the empty string, the
serializer emits no description element at all — hence the embedded HTML
attribute table is omitted entirely, even when the attribute mapping is
non-empty — while the structured ExtendedData block for those same
attributes is still emitted. -/
theorem empty_description_omits_description_element (p : Placemark)
    (hd : p.description = some "") :
    (∀ s, KElem.descriptionEl s ∉ placemarkElems p) ∧
    (p.extended_data ≠ [] →
      KElem.extendedDataEl p.extended_data ∈ placemarkElems p) := by
  have hdt : descTruthy p.description = false := by rw [hd]; rfl
  constructor
  · intro s hmem
    by_cases he : p.extended_data.isEmpty <;>
      simp [placemarkElems, hdt, he] at hmem
  · intro hne
    have he : p.extended_data.isEmpty = false := by
      cases hl : p.extended_data with
      | nil => exact absurd hl hne
      | cons x xs => rfl
    simp [placemarkElems, he]

/-- Witness for `empty_description_omits_description_element`: a concrete
marker with empty description and one attribute still carries its
ExtendedData element. -/
theorem empty_description_omits_description_element_witness :
    KElem.extendedDataEl [("A", "B")] ∈ placemarkElems
      { name := some "N", coordinates := (1, 2), description := some "",
        extended_data := [("A", "B")] } :=
  (empty_description_omits_description_element
    { name := some "N", coordinates := (1, 2), description := some "",
      extended_data := [("A", "B")] } rfl).2 (by decide)

/-! ### C6: the hand-written CDATA block is escaped on serialization -/

/-- C6, evaluated at a failing input: the description element the code
emits for a marker with a non-empty description and one attribute contains
no CDATA section and no raw table markup; both arrive escaped (the escaped
CDATA opener and the escaped table tag are present instead).  The pipeline
of lines 162-164 escapes the text built at lines 131-139, so the literal
block the code writes by hand never reaches the output unescaped and the
raw HTML table never appears verbatim. -/
theorem cdata_table_is_escaped_not_literal :
    substrB "&lt;![CDATA[" (serializedDescription
      { name := some "A", coordinates := (1, 2),
        description := some "10 Main St",
        extended_data := [("City", "Boston")] }) = true ∧
    substrB "<![CDATA[" (serializedDescription
      { name := some "A", coordinates := (1, 2),
        description := some "10 Main St",
        extended_data := [("City", "Boston")] }) = false ∧
    substrB "<table border=\x271\x27>" (serializedDescription
      { name := some "A", coordinates := (1, 2),
        description := some "10 Main St",
        extended_data := [("City", "Boston")] }) = false ∧
    substrB "&lt;table border=\x271\x27&gt;" (serializedDescription
      { name := some "A", coordinates := (1, 2),
        description := some "10 Main St",
        extended_data := [("City", "Boston")] }) = true := by
  decide

end CsvToKml
